import Mathlib

/-!
# Verification of the Mood Entry Service (backend/server.py)

Shallow embedding of the FastAPI + MongoDB mood-journal backend.

Modelling decisions, all read off the source:

* The Mongo collection `mood_entries` is a `List MoodDoc` in insertion
  order; `find` without a sort returns that order, `find_one` returns the
  first match in that order, and `sort` is modelled by a stable insertion
  sort on the given key.
* `timestamp` is stored in Mongo as an ISO-8601 string
  (`prepare_for_mongo` / `parse_from_mongo` convert `datetime` ↔ string);
  we keep the string form everywhere, so the `datetime` ↔ string
  conversions are identities of the model.  Mongo compares the stored
  strings lexicographically, which is the `≤` of `String` here.
* Nondeterministic inputs of a handler (the generated `uuid4` id, the
  `datetime.now` instant, whether the storage write succeeds) are explicit
  parameters.
* Every handler body is wrapped in `try ... except Exception as e:
  raise HTTPException(status_code=500, detail=str(e))`.  FastAPI's
  `HTTPException` is a subclass of `Exception`, so an `HTTPException(404)`
  raised inside the `try` is caught by that clause and re-raised with
  status 500 and detail `str(e)`, which for a Starlette `HTTPException` is
  `"{status_code}: {detail}"`.  The embedding applies that wrapping
  literally: a handler returns `Except (Nat × String) α`, where the `Nat`
  is the final HTTP status.
* `pydantic` structural validation: `MoodEntryCreate.notes` is
  `Optional[str] = ""`, so an absent field becomes `""` while an explicit
  JSON `null` becomes `None`; building a `MoodEntryResponse` whose `notes`
  is `None` raises a `ValidationError` (its message text is abstracted to
  a constant, only the resulting 500 status matters).
-/

/-- A document of the `mood_entries` collection, fields as persisted by
`prepare_for_mongo(mood_obj.dict())`.  `notes` is `Option String` because
the pydantic field is `Optional[str]` and an explicit `null` is stored. -/
structure MoodDoc where
  id : String
  mood : Int
  mood_emoji : String
  notes : Option String
  date : String
  timestamp : String
  deriving DecidableEq, Repr

/-- The request body model `MoodEntryCreate` (no `id`, no `timestamp`). -/
structure MoodEntryCreate where
  mood : Int
  mood_emoji : String
  notes : Option String
  date : String
  deriving DecidableEq, Repr

/-- The response model `MoodEntryResponse`: `notes` is a required `str`. -/
structure MoodEntryResponse where
  id : String
  mood : Int
  mood_emoji : String
  notes : String
  date : String
  timestamp : String
  deriving DecidableEq, Repr

/-- Pydantic validation of a create request body.  `rawNotes` encodes the
JSON field: `none` = field absent (default `""` applies), `some none` =
explicit `null`, `some (some s)` = the string `s`. -/
def validateMoodEntryCreate (mood : Int) (mood_emoji : String)
    (rawNotes : Option (Option String)) (date : String) : MoodEntryCreate :=
  { mood := mood, mood_emoji := mood_emoji,
    notes := match rawNotes with
      | none => some ""
      | some v => v,
    date := date }

/-- Model of `MoodEntryResponse(**doc)`: succeeds iff `notes` is an actual string,
otherwise pydantic raises a `ValidationError`. -/
def toResponse (d : MoodDoc) : Option MoodEntryResponse :=
  match d.notes with
  | some n => some { id := d.id, mood := d.mood, mood_emoji := d.mood_emoji,
                     notes := n, date := d.date, timestamp := d.timestamp }
  | none => none

/-- Model of `str(e)` of a Starlette `HTTPException`: `"{status_code}: {detail}"`. -/
def httpExnStr (status : Nat) (detail : String) : String :=
  toString status ++ ": " ++ detail

/-- Abstracted `str` of the pydantic `ValidationError` raised when a
response model gets `notes=None`. -/
def validationErrorMessage : String :=
  "validation error for MoodEntryResponse"

/-- Abstracted `str` of the exception a failed storage write raises. -/
def storageErrorMessage : String :=
  "storage write failed"

/-- Handler `POST /api/moods` (`create_mood_entry`).  `newId` is the `uuid4()`
the `MoodEntry` default factory generates, `now` the ISO string of
`datetime.now(timezone.utc)`, `writeOk` whether `insert_one` succeeds.
Returns the collection after the call and the HTTP outcome. -/
def create_mood_entry (db : List MoodDoc) (mood_data : MoodEntryCreate)
    (newId : String) (now : String) (writeOk : Bool) :
    List MoodDoc × Except (Nat × String) MoodEntryResponse :=
  let mood_obj : MoodDoc :=
    { id := newId, mood := mood_data.mood, mood_emoji := mood_data.mood_emoji,
      notes := mood_data.notes, date := mood_data.date, timestamp := now }
  if writeOk then
    -- insert_one succeeded: the document is in the collection; then
    -- `MoodEntryResponse(**mood_obj.dict())` is built.
    match toResponse mood_obj with
    | some r => (db ++ [mood_obj], .ok r)
    | none => (db ++ [mood_obj], .error (500, validationErrorMessage))
  else
    -- insert_one raised: nothing stored, the except clause yields a 500.
    (db, .error (500, storageErrorMessage))

/-- The relation `ListAll` sorts by: timestamp descending. -/
def tsGE (a b : MoodDoc) : Prop := b.timestamp ≤ a.timestamp

instance : DecidableRel tsGE := fun a b =>
  inferInstanceAs (Decidable (b.timestamp ≤ a.timestamp))

instance : IsTotal MoodDoc tsGE :=
  ⟨fun a b => (le_total b.timestamp a.timestamp).imp id id⟩

instance : IsTrans MoodDoc tsGE :=
  ⟨fun _ _ _ h h' => le_trans h' h⟩

/-- The relation `ExportCsv` sorts by: date ascending. -/
def dateLE (a b : MoodDoc) : Prop := a.date ≤ b.date

instance : DecidableRel dateLE := fun a b =>
  inferInstanceAs (Decidable (a.date ≤ b.date))

instance : IsTotal MoodDoc dateLE :=
  ⟨fun a b => le_total a.date b.date⟩

instance : IsTrans MoodDoc dateLE :=
  ⟨fun _ _ _ h h' => le_trans h h'⟩

/-- Handler `GET /api/moods` (`get_mood_entries`): `find().sort("timestamp", -1)`,
then a `MoodEntryResponse` per document. -/
def get_mood_entries (db : List MoodDoc) :
    Except (Nat × String) (List MoodEntryResponse) :=
  match (List.insertionSort tsGE db).mapM toResponse with
  | some rs => .ok rs
  | none => .error (500, validationErrorMessage)

/-- Handler `GET /api/moods/{date}` (`get_mood_by_date`): `find_one({"date": date})`
returns the first stored document with that exact date string, `None`
(returned as bare `null`, HTTP 200) otherwise. -/
def get_mood_by_date (db : List MoodDoc) (date : String) :
    Except (Nat × String) (Option MoodEntryResponse) :=
  match db.find? (fun d => d.date == date) with
  | some mood =>
    match toResponse mood with
    | some r => .ok (some r)
    | none => .error (500, validationErrorMessage)
  | none => .ok none

/-- The `$set` document of `update_mood_entry`: `mood_data.dict()` plus a
fresh `timestamp`; `id` is not among the set fields. -/
def setFields (p : MoodEntryCreate) (ts : String) (d : MoodDoc) : MoodDoc :=
  { d with mood := p.mood, mood_emoji := p.mood_emoji, notes := p.notes,
           date := p.date, timestamp := ts }

/-- Model of `update_one({"id": mood_id}, {"$set": ...})`: applies the set to the
first matching document; returns the new collection and `modified_count`,
which is `1` only when the set actually changed the document. -/
def update_one (db : List MoodDoc) (mood_id : String) (p : MoodEntryCreate)
    (ts : String) : List MoodDoc × Nat :=
  match db with
  | [] => ([], 0)
  | d :: rest =>
    if d.id == mood_id then
      let d2 := setFields p ts d
      (d2 :: rest, if d2 = d then 0 else 1)
    else
      let r := update_one rest mood_id p ts
      (d :: r.1, r.2)

/-- Handler `PUT /api/moods/{mood_id}` (`update_mood_entry`).  On
`modified_count == 1` it re-reads the document by id and returns it;
otherwise it raises `HTTPException(404)`, which the `except Exception`
clause catches and re-raises as a 500 with detail `str(e)`. -/
def update_mood_entry (db : List MoodDoc) (mood_id : String)
    (mood_data : MoodEntryCreate) (now : String) :
    List MoodDoc × Except (Nat × String) MoodEntryResponse :=
  let r := update_one db mood_id mood_data now
  if r.2 = 1 then
    match r.1.find? (fun d => d.id == mood_id) with
    | some updated =>
      match toResponse updated with
      | some resp => (r.1, .ok resp)
      | none => (r.1, .error (500, validationErrorMessage))
    | none => (r.1, .error (500, httpExnStr 404 "Mood entry not found"))
  else
    (r.1, .error (500, httpExnStr 404 "Mood entry not found"))

/-- Model of `delete_one({"id": mood_id})`: removes the first matching document;
returns the new collection and `deleted_count`. -/
def delete_one (db : List MoodDoc) (mood_id : String) : List MoodDoc × Nat :=
  match db with
  | [] => ([], 0)
  | d :: rest =>
    if d.id == mood_id then
      (rest, 1)
    else
      let r := delete_one rest mood_id
      (d :: r.1, r.2)

/-- Handler `DELETE /api/moods/{mood_id}` (`delete_mood_entry`).  On
`deleted_count == 1` it returns the confirmation message; otherwise it
raises `HTTPException(404)`, which the `except Exception` clause catches
and re-raises as a 500 with detail `str(e)`. -/
def delete_mood_entry (db : List MoodDoc) (mood_id : String) :
    List MoodDoc × Except (Nat × String) String :=
  let r := delete_one db mood_id
  if r.2 = 1 then
    (r.1, .ok "Mood entry deleted successfully")
  else
    (r.1, .error (500, httpExnStr 404 "Mood entry not found"))

/-- Model of `notes.replace('"', '""')` at character level: the pattern is the
single character `"`, each occurrence becomes two. -/
def escChars : List Char → List Char
  | [] => []
  | c :: cs => if c = '"' then '"' :: '"' :: escChars cs else c :: escChars cs

/-- Model of `str.replace('"', '""')` on a `String`. -/
def escapeQuotes (s : String) : String := String.mk (escChars s.data)

/-- The quoted, escaped CSV field the export produces for `notes`. -/
def notesField (s : String) : String := "\"" ++ escapeQuotes s ++ "\""

/-- One data row of the export:
`f'"{date}",{mood},"{emoji}","{notes}","{timestamp}"\n'`.  The `mood`
field is interpolated bare (no quotes); only `notes` is escaped.  A
document whose stored `notes` is `None` makes `None.replace` raise an
`AttributeError`, so the row construction fails. -/
def csvRow (d : MoodDoc) : Option String :=
  match d.notes with
  | some n =>
    some ("\"" ++ d.date ++ "\"," ++ toString d.mood ++ ",\"" ++
          d.mood_emoji ++ "\"," ++ notesField n ++ ",\"" ++ d.timestamp ++
          "\"\n")
  | none => none

/-- Abstracted `str` of the `AttributeError` from `None.replace`. -/
def attributeErrorMessage : String :=
  "NoneType object has no attribute replace"

/-- The `{content, filename}` payload of the CSV export endpoint. -/
structure CsvExport where
  content : String
  filename : String
  deriving DecidableEq, Repr

/-- Handler `GET /api/moods/export/csv` (`export_moods_csv`): `find().sort("date", 1)`,
header line, one row per document, filename from
`datetime.now(timezone.utc).strftime('%Y%m%d')` (passed in as `today`). -/
def export_moods_csv (db : List MoodDoc) (today : String) :
    Except (Nat × String) CsvExport :=
  match (List.insertionSort dateLE db).mapM csvRow with
  | some rows =>
    .ok { content := "Date,Mood,Emoji,Notes,Timestamp\n" ++ String.join rows,
          filename := "mood_data_" ++ today ++ ".csv" }
  | none => .error (500, attributeErrorMessage)

/-- The id-uniqueness invariant of the collection. -/
@[reducible] def uniqueIds (db : List MoodDoc) : Prop :=
  (db.map MoodDoc.id).Nodup

/-! ## Shared helper definitions and lemmas -/

/-- The response value for a document whose `notes` is an actual string
(notation for the success value of `toResponse`). -/
def respOfDoc (d : MoodDoc) : MoodEntryResponse :=
  { id := d.id, mood := d.mood, mood_emoji := d.mood_emoji,
    notes := d.notes.getD "", date := d.date, timestamp := d.timestamp }

theorem toResponse_eq_some {d : MoodDoc} (h : d.notes.isSome) :
    toResponse d = some (respOfDoc d) := by
  unfold toResponse respOfDoc
  cases hn : d.notes with
  | none => rw [hn] at h; simp at h
  | some n => simp [hn]

theorem mapM_eq_map {β : Type} {f : MoodDoc → Option β} {g : MoodDoc → β} :
    ∀ l : List MoodDoc, (∀ d ∈ l, f d = some (g d)) →
      l.mapM f = some (l.map g)
  | [], _ => rfl
  | d :: l, h => by
    rw [List.mapM_cons, h d (List.mem_cons_self d l),
        mapM_eq_map l (fun e he => h e (List.mem_cons_of_mem d he))]
    rfl

/-! ## Concrete fixtures used by closed theorems and witnesses -/

def d0 : MoodDoc :=
  { id := "id0", mood := 4, mood_emoji := "E0", notes := some "n0",
    date := "2025-01-01", timestamp := "2025-01-01T08:00:00+00:00" }

def d1 : MoodDoc :=
  { id := "id1", mood := 2, mood_emoji := "E1", notes := some "n1",
    date := "2025-01-02", timestamp := "2025-01-02T09:00:00+00:00" }

def dbW : List MoodDoc := [d0, d1]

def p0 : MoodEntryCreate :=
  { mood := 5, mood_emoji := "E9", notes := some "updated",
    date := "2025-01-03" }

/-! ## Claims -/

/-- C1.  For an `id` matching no stored entry (here: `"missing"` against a
collection holding only `d0`), `update_mood_entry` leaves the collection
unchanged — but it does NOT respond HTTP 404: the `HTTPException(404,
"Mood entry not found")` it raises is caught by the handler's own
`except Exception` clause and re-raised as HTTP 500 with detail
`str(e) = "404: Mood entry not found"`.  The spec's claimed 404 never
reaches the client. -/
theorem update_notfound_actually_500 :
    update_mood_entry [d0] "missing" p0 "2025-01-03T10:00:00+00:00" =
      ([d0], .error (500, "404: Mood entry not found")) := rfl

/-- C2.  `delete_mood_entry` on an `id` matching no stored entry leaves
the collection unchanged, but responds HTTP 500 (detail
`"404: Mood entry not found"`) instead of the claimed 404, because the
raised `HTTPException(404)` is caught by the `except Exception` clause
and re-wrapped. -/
theorem delete_notfound_actually_500 :
    delete_mood_entry [d0] "missing" =
      ([d0], .error (500, "404: Mood entry not found")) := rfl

/-- C6.  No range check is performed on `mood`: for EVERY integer mood
value, `create_mood_entry` persists the entry and succeeds when the
storage write succeeds, and fails (without storing) exactly when the
storage write fails. -/
theorem create_no_mood_range_check (db : List MoodDoc) (mood : Int)
    (emoji notes dt newId now : String) :
    (create_mood_entry db
        (validateMoodEntryCreate mood emoji (some (some notes)) dt)
        newId now true =
      (db ++ [{ id := newId, mood := mood, mood_emoji := emoji,
                notes := some notes, date := dt, timestamp := now }],
       .ok { id := newId, mood := mood, mood_emoji := emoji,
             notes := notes, date := dt, timestamp := now })) ∧
    (create_mood_entry db
        (validateMoodEntryCreate mood emoji (some (some notes)) dt)
        newId now false =
      (db, .error (500, storageErrorMessage))) :=
  ⟨rfl, rfl⟩

/-- C10.  A create payload whose `notes` field is an explicit JSON `null`
passes `MoodEntryCreate` validation (`Optional[str]`), the document is
inserted with `notes = None`, and only then does building the
`MoodEntryResponse` (whose `notes` is a required `str`) raise a
`ValidationError`: the caller gets a 500 although the entry is now
stored — Create is not atomic in its error behavior here. -/
theorem create_null_notes_persists_then_500 (db : List MoodDoc)
    (mood : Int) (emoji dt newId now : String) :
    create_mood_entry db
        (validateMoodEntryCreate mood emoji (some none) dt)
        newId now true =
      (db ++ [{ id := newId, mood := mood, mood_emoji := emoji,
                notes := none, date := dt, timestamp := now }],
       .error (500, validationErrorMessage)) := rfl

/-- Lemma: `find?` returns the first element satisfying the predicate. -/
theorem find?_first {p : MoodDoc → Bool} :
    ∀ (pre : List MoodDoc) (d : MoodDoc) (post : List MoodDoc),
      (∀ e ∈ pre, p e = false) → p d = true →
      (pre ++ d :: post).find? p = some d
  | [], d, post, _, hd => by simp [List.find?, hd]
  | e :: pre, d, post, hpre, hd => by
    have he := hpre e (List.mem_cons_self e pre)
    simp only [List.cons_append, List.find?, he]
    exact find?_first pre d post
      (fun x hx => hpre x (List.mem_cons_of_mem e hx)) hd

/-- C4.  `ListAll` never errors on a collection of well-formed documents:
it returns one response per stored entry, ordered non-increasing by
`timestamp`, covering all entries (a permutation of the collection), and
the empty collection yields the empty sequence. -/
theorem listAll_sorted_desc (db : List MoodDoc)
    (h : ∀ d ∈ db, d.notes.isSome) :
    get_mood_entries db = .ok ((List.insertionSort tsGE db).map respOfDoc) ∧
    ((List.insertionSort tsGE db).map respOfDoc).Pairwise
      (fun a b => b.timestamp ≤ a.timestamp) ∧
    ((List.insertionSort tsGE db).map respOfDoc).Perm (db.map respOfDoc) ∧
    get_mood_entries [] = .ok [] := by
  have hmap : (List.insertionSort tsGE db).mapM toResponse =
      some ((List.insertionSort tsGE db).map respOfDoc) :=
    mapM_eq_map _ (fun d hd =>
      toResponse_eq_some (h d ((List.perm_insertionSort tsGE db).mem_iff.mp hd)))
  refine ⟨?_, ?_, ?_, rfl⟩
  · unfold get_mood_entries
    rw [hmap]
  · exact List.pairwise_map.mpr
      ((List.sorted_insertionSort tsGE db).imp (fun hab => hab))
  · exact (List.perm_insertionSort tsGE db).map respOfDoc

/-- Witness for C4 on the concrete two-entry collection `dbW`. -/
theorem listAll_sorted_desc_witness :
    get_mood_entries dbW = .ok ((List.insertionSort tsGE dbW).map respOfDoc) ∧
    ((List.insertionSort tsGE dbW).map respOfDoc).Pairwise
      (fun a b => b.timestamp ≤ a.timestamp) ∧
    ((List.insertionSort tsGE dbW).map respOfDoc).Perm (dbW.map respOfDoc) ∧
    get_mood_entries [] = .ok [] :=
  listAll_sorted_desc dbW (by decide)

/-- C5.  `GetByDate` is an exact string match returning the FIRST stored
entry with that date, and `.ok none` (HTTP 200 with `null` body, not an
error) when no entry has the date. -/
theorem getByDate_exact_first_match (db : List MoodDoc) (date : String)
    (h : ∀ d ∈ db, d.notes.isSome) :
    ((∀ d ∈ db, d.date ≠ date) → get_mood_by_date db date = .ok none) ∧
    (∀ pre d post, db = pre ++ d :: post → d.date = date →
      (∀ e ∈ pre, e.date ≠ date) →
      get_mood_by_date db date = .ok (some (respOfDoc d))) := by
  constructor
  · intro hall
    unfold get_mood_by_date
    have hnone : db.find? (fun d => d.date == date) = none :=
      List.find?_eq_none.mpr (fun x hx => by simp [hall x hx])
    rw [hnone]
  · intro pre d post hdb hd hpre
    subst hdb
    have hfind : (pre ++ d :: post).find? (fun x => x.date == date) = some d :=
      find?_first pre d post
        (fun e he => beq_eq_false_iff_ne.mpr (hpre e he))
        (by simp [hd])
    unfold get_mood_by_date
    rw [hfind]
    simp [toResponse_eq_some (h d (by simp))]

/-- Witness for C5: on `dbW`, the date of `d1` finds `d1` (with `d0` in
front not matching), and an unused date yields `.ok none`. -/
theorem getByDate_exact_first_match_witness :
    get_mood_by_date dbW "2025-01-02" = .ok (some (respOfDoc d1)) ∧
    get_mood_by_date dbW "1999-01-01" = .ok none :=
  ⟨(getByDate_exact_first_match dbW "2025-01-02" (by decide)).2 [d0] d1 []
      rfl rfl (by decide),
   (getByDate_exact_first_match dbW "1999-01-01" (by decide)).1 (by decide)⟩

/-- The data row the export's f-string actually renders for a document
whose `notes` is a string (notation for the success value of `csvRow`):
the `mood` field is bare, only `notes` is escaped. -/
def rowOfDoc (d : MoodDoc) : String :=
  "\"" ++ d.date ++ "\"," ++ toString d.mood ++ ",\"" ++ d.mood_emoji ++
    "\"," ++ notesField (d.notes.getD "") ++ ",\"" ++ d.timestamp ++ "\"\n"

theorem csvRow_eq_some {d : MoodDoc} (h : d.notes.isSome) :
    csvRow d = some (rowOfDoc d) := by
  unfold csvRow rowOfDoc
  cases hn : d.notes with
  | none => rw [hn] at h; simp at h
  | some n => simp [hn]

/-- Modelled from the claim's words, for comparison only: a CSV data row
with EVERY field double-quoted and embedded double quotes doubled. -/
def csvRowAllQuotedClaim (d : MoodDoc) : String :=
  "\"" ++ escapeQuotes d.date ++ "\",\"" ++ escapeQuotes (toString d.mood) ++
    "\",\"" ++ escapeQuotes d.mood_emoji ++ "\"," ++
    notesField (d.notes.getD "") ++ ",\"" ++ escapeQuotes d.timestamp ++
    "\"\n"

/-- C3, counterexample.  On the single-entry collection `[d0]` the export
emits the row `"2025-01-01",4,"E0","n0","2025-01-01T08:00:00+00:00"` —
the `Mood` field `4` is NOT double-quoted — so the content differs from
the all-fields-quoted rendering the claim describes. -/
theorem export_csv_mood_field_unquoted :
    export_moods_csv [d0] "20250101" =
      .ok { content := "Date,Mood,Emoji,Notes,Timestamp\n\"2025-01-01\",4,\"E0\",\"n0\",\"2025-01-01T08:00:00+00:00\"\n",
            filename := "mood_data_20250101.csv" } ∧
    "Date,Mood,Emoji,Notes,Timestamp\n\"2025-01-01\",4,\"E0\",\"n0\",\"2025-01-01T08:00:00+00:00\"\n" ≠
      "Date,Mood,Emoji,Notes,Timestamp\n" ++ csvRowAllQuotedClaim d0 := by
  constructor
  · rfl
  · decide

/-- C3, amended.  For a collection of well-formed documents the export
returns (never erring, also on the empty collection) the header
`Date,Mood,Emoji,Notes,Timestamp`, one row per entry ordered by `date`
ascending (a permutation of the collection), and the filename
`mood_data_<today>.csv`; in each row every field EXCEPT `Mood` is
double-quoted (`Mood` is rendered bare) and double quotes are doubled in
the `Notes` field only. -/
theorem export_csv_amended (db : List MoodDoc) (today : String)
    (h : ∀ d ∈ db, d.notes.isSome) :
    export_moods_csv db today =
      .ok { content := "Date,Mood,Emoji,Notes,Timestamp\n" ++
              String.join ((List.insertionSort dateLE db).map rowOfDoc),
            filename := "mood_data_" ++ today ++ ".csv" } ∧
    (List.insertionSort dateLE db).Pairwise dateLE ∧
    (List.insertionSort dateLE db).Perm db ∧
    (db = [] → export_moods_csv db today =
      .ok { content := "Date,Mood,Emoji,Notes,Timestamp\n",
            filename := "mood_data_" ++ today ++ ".csv" }) := by
  have hmap : (List.insertionSort dateLE db).mapM csvRow =
      some ((List.insertionSort dateLE db).map rowOfDoc) :=
    mapM_eq_map _ (fun d hd =>
      csvRow_eq_some (h d ((List.perm_insertionSort dateLE db).mem_iff.mp hd)))
  refine ⟨?_, List.sorted_insertionSort dateLE db,
          List.perm_insertionSort dateLE db, ?_⟩
  · unfold export_moods_csv
    rw [hmap]
  · intro hdb
    subst hdb
    rfl

/-- Witness for the amended C3 on the concrete collection `dbW`. -/
theorem export_csv_amended_witness :
    export_moods_csv dbW "20250115" =
      .ok { content := "Date,Mood,Emoji,Notes,Timestamp\n" ++
              String.join ((List.insertionSort dateLE dbW).map rowOfDoc),
            filename := "mood_data_" ++ "20250115" ++ ".csv" } ∧
    (List.insertionSort dateLE dbW).Pairwise dateLE ∧
    (List.insertionSort dateLE dbW).Perm dbW ∧
    (dbW = [] → export_moods_csv dbW "20250115" =
      .ok { content := "Date,Mood,Emoji,Notes,Timestamp\n",
            filename := "mood_data_" ++ "20250115" ++ ".csv" }) :=
  export_csv_amended dbW "20250115" (by decide)

/-- The collection after a successful create is the old collection plus
one document carrying the server-generated id and timestamp — whatever
the payload was (the payload has no id or timestamp field to supply). -/
theorem create_fst_append (db : List MoodDoc) (p : MoodEntryCreate)
    (newId now : String) :
    (create_mood_entry db p newId now true).1 =
      db ++ [{ id := newId, mood := p.mood, mood_emoji := p.mood_emoji,
               notes := p.notes, date := p.date, timestamp := now }] := by
  unfold create_mood_entry
  cases hp : p.notes <;> simp [toResponse, hp]

theorem update_one_fst_map_id (i : String) (p : MoodEntryCreate)
    (ts : String) :
    ∀ db : List MoodDoc,
      (update_one db i p ts).1.map MoodDoc.id = db.map MoodDoc.id
  | [] => rfl
  | d :: rest => by
    unfold update_one
    by_cases h : (d.id == i) = true
    · simp [h, setFields]
    · simp [h, update_one_fst_map_id i p ts rest]

theorem update_mood_entry_fst (db : List MoodDoc) (i : String)
    (p : MoodEntryCreate) (now : String) :
    (update_mood_entry db i p now).1 = (update_one db i p now).1 := by
  simp only [update_mood_entry]
  split
  · split
    · split <;> rfl
    · rfl
  · rfl

theorem delete_one_fst_sublist (i : String) :
    ∀ db : List MoodDoc, List.Sublist (delete_one db i).1 db
  | [] => List.Sublist.refl []
  | d :: rest => by
    unfold delete_one
    by_cases h : (d.id == i) = true
    · rw [if_pos h]
      exact List.sublist_cons_self d rest
    · rw [if_neg h]
      exact (delete_one_fst_sublist i rest).cons₂ d

theorem delete_mood_entry_fst (db : List MoodDoc) (i : String) :
    (delete_mood_entry db i).1 = (delete_one db i).1 := by
  simp only [delete_mood_entry]
  split <;> rfl

/-- C7.  Every created entry carries the server-generated id (fresh by
assumption on `uuid4`) and the server-assigned timestamp, regardless of
the payload (which has no such fields); `notes` defaults to `""` when
absent from the payload; and id-uniqueness of the collection is
preserved by create (with a fresh id), update (which never touches the
`id` field) and delete. -/
theorem server_assigned_identity_invariant :
    (∀ db p newId now, newId ∉ db.map MoodDoc.id → uniqueIds db →
      (create_mood_entry db p newId now true).1 =
        db ++ [{ id := newId, mood := p.mood, mood_emoji := p.mood_emoji,
                 notes := p.notes, date := p.date, timestamp := now }] ∧
      uniqueIds (create_mood_entry db p newId now true).1) ∧
    (∀ mood emoji dt,
      (validateMoodEntryCreate mood emoji none dt).notes = some "") ∧
    (∀ db i p now,
      (update_mood_entry db i p now).1.map MoodDoc.id = db.map MoodDoc.id) ∧
    (∀ db i p now, uniqueIds db → uniqueIds (update_mood_entry db i p now).1) ∧
    (∀ db i, uniqueIds db → uniqueIds (delete_mood_entry db i).1) := by
  have hupd : ∀ (db : List MoodDoc) (i : String) (p : MoodEntryCreate)
      (now : String),
      (update_mood_entry db i p now).1.map MoodDoc.id = db.map MoodDoc.id :=
    fun db i p now => by
      rw [update_mood_entry_fst]
      exact update_one_fst_map_id i p now db
  refine ⟨?_, fun _ _ _ => rfl, hupd, ?_, ?_⟩
  · intro db p newId now hfresh hu
    refine ⟨create_fst_append db p newId now, ?_⟩
    unfold uniqueIds
    rw [create_fst_append db p newId now, List.map_append]
    simp [List.nodup_append, List.disjoint_singleton, hu, hfresh]
  · intro db i p now hu
    unfold uniqueIds
    rw [hupd db i p now]
    exact hu
  · intro db i hu
    unfold uniqueIds
    rw [delete_mood_entry_fst]
    exact hu.sublist ((delete_one_fst_sublist i db).map MoodDoc.id)

/-- Witness for C7 on the concrete collection `dbW`, fresh id
`"fresh-id"`, and the concrete operations. -/
theorem server_assigned_identity_invariant_witness :
    (create_mood_entry dbW p0 "fresh-id" "T9" true).1 =
      dbW ++ [{ id := "fresh-id", mood := p0.mood, mood_emoji := p0.mood_emoji,
                notes := p0.notes, date := p0.date, timestamp := "T9" }] ∧
    uniqueIds (create_mood_entry dbW p0 "fresh-id" "T9" true).1 ∧
    (validateMoodEntryCreate 3 "E" none "2025-02-02").notes = some "" ∧
    (update_mood_entry dbW "id0" p0 "T9").1.map MoodDoc.id =
      dbW.map MoodDoc.id ∧
    uniqueIds (update_mood_entry dbW "id0" p0 "T9").1 ∧
    uniqueIds (delete_mood_entry dbW "id0").1 := by
  obtain ⟨h1, h2, h3, h4, h5⟩ := server_assigned_identity_invariant
  obtain ⟨hc1, hc2⟩ := h1 dbW p0 "fresh-id" "T9" (by decide) (by decide)
  exact ⟨hc1, hc2, h2 3 "E" "2025-02-02", h3 dbW "id0" p0 "T9",
         h4 dbW "id0" p0 "T9" (by decide), h5 dbW "id0" (by decide)⟩

/-- Model of `update_one` on a collection split around the first document
matching the id: the set is applied exactly there, and `modified_count`
is 1 because the set changed the document. -/
theorem update_one_first_match (p : MoodEntryCreate) (now : String) :
    ∀ (pre : List MoodDoc) (d : MoodDoc) (post : List MoodDoc) (i : String),
      d.id = i → (∀ e ∈ pre, e.id ≠ i) → setFields p now d ≠ d →
      update_one (pre ++ d :: post) i p now =
        (pre ++ setFields p now d :: post, 1)
  | [], d, post, i, hid, _, hne => by
    unfold update_one
    simp [hid, hne]
  | e :: pre, d, post, i, hid, hpre, hne => by
    unfold update_one
    have he : (e.id == i) = false :=
      beq_eq_false_iff_ne.mpr (hpre e (List.mem_cons_self e pre))
    simp [he, update_one_first_match p now pre d post i hid
      (fun x hx => hpre x (List.mem_cons_of_mem e hx)) hne]

/-- C8.  A successful update (matched id, set actually modifies — here
guaranteed by the refreshed timestamp differing) replaces exactly the
matched entry's `mood`, `mood_emoji`, `notes` and `date` with the payload
values and its `timestamp` with now, keeps that entry's `id`, leaves
every other entry (before and after it) untouched, and returns the
post-update entry. -/
theorem update_success_replaces_fields (pre post : List MoodDoc)
    (d : MoodDoc) (i : String) (p : MoodEntryCreate) (now s : String)
    (hid : d.id = i)
    (hpre : ∀ e ∈ pre, e.id ≠ i)
    (hnotes : p.notes = some s)
    (hts : d.timestamp ≠ now) :
    update_mood_entry (pre ++ d :: post) i p now =
      (pre ++ setFields p now d :: post,
       .ok { id := d.id, mood := p.mood, mood_emoji := p.mood_emoji,
             notes := s, date := p.date, timestamp := now }) := by
  have hne : setFields p now d ≠ d := fun hcontra =>
    hts ((congrArg MoodDoc.timestamp hcontra).symm)
  have h1 := update_one_first_match p now pre d post i hid hpre hne
  have hfind : (pre ++ setFields p now d :: post).find?
      (fun x => x.id == i) = some (setFields p now d) :=
    find?_first pre (setFields p now d) post
      (fun e he => beq_eq_false_iff_ne.mpr (hpre e he))
      (by simp [setFields, hid])
  simp only [update_mood_entry, h1]
  rw [if_pos trivial, hfind]
  simp [toResponse, setFields, hnotes]

/-- Witness for C8: updating `d1` (behind `d0`) in `dbW` with payload
`p0` at a fresh instant. -/
theorem update_success_replaces_fields_witness :
    update_mood_entry ([d0] ++ d1 :: []) "id1" p0 "T9" =
      ([d0] ++ setFields p0 "T9" d1 :: [],
       .ok { id := d1.id, mood := p0.mood, mood_emoji := p0.mood_emoji,
             notes := "updated", date := p0.date, timestamp := "T9" }) :=
  update_success_replaces_fields [d0] [] d1 "id1" p0 "T9" "updated"
    rfl (by decide) rfl (by decide)

/-- Modelled from the claim's words (the inverse direction of the
round-trip): collapse each doubled double quote back to a single one. -/
def collapseQuotes : List Char → List Char
  | [] => []
  | [c] => [c]
  | c :: c2 :: cs =>
    if c = '"' ∧ c2 = '"' then '"' :: collapseQuotes cs
    else c :: collapseQuotes (c2 :: cs)

theorem collapseQuotes_cons_of_ne (c : Char) (h : c ≠ '"') (l : List Char) :
    collapseQuotes (c :: l) = c :: collapseQuotes l := by
  cases l with
  | nil => rfl
  | cons c2 cs => simp [collapseQuotes, h]

theorem collapseQuotes_quote_quote (l : List Char) :
    collapseQuotes ('"' :: '"' :: l) = '"' :: collapseQuotes l := by
  simp [collapseQuotes]

/-- Modelled from the claim's words: strip the wrapping quote characters
of a quoted CSV field (first and last character). -/
def stripWrappingQuotes (s : String) : String :=
  String.mk ((s.data.drop 1).dropLast)

/-- Modelled from the claim's words: un-escape a quoted CSV field by
stripping the wrapping quotes and collapsing doubled quotes. -/
def unescapeCsvField (s : String) : String :=
  String.mk (collapseQuotes (stripWrappingQuotes s).data)

theorem collapseQuotes_escChars : ∀ l : List Char,
    collapseQuotes (escChars l) = l
  | [] => rfl
  | c :: cs => by
    unfold escChars
    by_cases h : c = '"'
    · rw [if_pos h, h, collapseQuotes_quote_quote, collapseQuotes_escChars cs]
    · rw [if_neg h, collapseQuotes_cons_of_ne c h, collapseQuotes_escChars cs]

/-- C9.  For notes containing a double quote character, the CSV field the
export produces for notes is the escaped text (each `"` doubled) wrapped
in double quotes, and un-escaping that field (stripping the wrapping
quotes, collapsing doubled quotes) recovers the original notes text. -/
theorem csv_notes_quote_roundtrip (s : String) (_h : '"' ∈ s.data) :
    notesField s = "\"" ++ escapeQuotes s ++ "\"" ∧
    unescapeCsvField (notesField s) = s := by
  refine ⟨rfl, ?_⟩
  unfold unescapeCsvField stripWrappingQuotes notesField escapeQuotes
  simp [String.data_append, collapseQuotes_escChars]

/-- Witness for C9 at the concrete notes text `a"b`. -/
theorem csv_notes_quote_roundtrip_witness :
    notesField "a\"b" = "\"" ++ escapeQuotes "a\"b" ++ "\"" ∧
    unescapeCsvField (notesField "a\"b") = "a\"b" :=
  csv_notes_quote_roundtrip "a\"b" (by decide)
